import Mathlib

/-!
Verification of the SP500 forecasts dashboard (`streamlit_app.py`).

The application is a read-only Streamlit dashboard over a Snowflake
warehouse.  We give a shallow embedding of its data-access functions:

* warehouse cell values are modelled by `Val` (strings, integers, NULL);
  timestamps are modelled as integers (one unit per time step);
* a pandas / Snowpark dataframe is a `Frame`: a list of column names and a
  list of rows, a row being an association list from column name to `Val`;
* a Snowflake session is a `Sess` record whose fields hold the outcome of
  each external interaction the app can perform (table reads, SQL results,
  registry calls); a fallible interaction has type `Except … …`, the
  `error` case standing for a raised Python exception;
* each Python function becomes a Lean function over `Sess`; a function
  whose Python body can propagate an exception returns `Except Unit …`,
  while a function that catches everything returns a plain value;
* the database interactions a run issues are collected as a `DbOp` trace,
  and `execOp` gives them their effect on warehouse state.
-/

namespace SP500App

/-- A warehouse / dataframe cell value: a string, an integer (timestamps are
integers in this model), or SQL NULL. -/
inductive Val where
  | str : String → Val
  | int : Int → Val
  | null : Val
deriving DecidableEq, Repr

/-- A dataframe row: an association list from column name to value. -/
abbrev Row := List (String × Val)

/-- Look a column up in a row; a missing column reads as NULL. -/
def Row.get (r : Row) (c : String) : Val :=
  match r.find? (fun p => p.1 = c) with
  | some p => p.2
  | none => Val.null

/-- A pandas / Snowpark dataframe: column names plus rows. -/
structure Frame where
  cols : List String
  rows : List Row
deriving DecidableEq, Repr

/-- The value of a `versions` cell as Python sees it: a string to be parsed
by `ast.literal_eval`, an actual list of strings, or some other type. -/
inductive VersionsVal where
  | vstr : String → VersionsVal
  | vlist : List String → VersionsVal
  | vother : VersionsVal
deriving DecidableEq, Repr

/-- The Snowflake session together with the behaviour of every external
interaction the app performs.  `Except.error` models a raised exception.
Fields follow `streamlit_app.py` line by line:

* `showModels`: rows (model name, versions cell) of `Registry.show_models`;
* `parse`: `ast.literal_eval` applied to a versions string, composed with
  the `or []` coercion of falsy results (so a successful parse always
  yields a list, possibly empty);
* `sqlVersions`: the `VERSIONS` cells of the fallback
  `SELECT versions FROM …SNOWFLAKE_ML_MODELS WHERE name = …` query;
* `defaultVersion`: the registry `get_model(…).default` name lookup
  (`none` when the `name` attribute is absent or not a string);
* `runPredict`: the registry model version `run` call (version, function
  name, input frame); its error case also covers a failing
  `get_model`/`version` lookup in `score_on_demand`;
* `sp500Tickers`: the `TICKER` column of `…SP500_TICKERS`;
* `priceFeatures`, `predictionsTable`, `driftTable`, `shapTable`: the
  contents of the corresponding tables (reading may raise);
* `timeBounds`: the `(MIN(TS), MAX(TS))` row over `PRICE_FEATURES`
  (`none` components are SQL NULL on an empty table);
* `today`: `pd.Timestamp.today()` as an integer, with one unit per day for
  the bounds fallback;
* `signalSql`: the result rows (SIGNAL strings) of
  `SELECT GET_TRADING_SIGNAL(ticker, days)`, the error payload being the
  exception message `str(e)`. -/
structure Sess where
  showModels : Except Unit (List (String × VersionsVal))
  parse : String → Except Unit (List String)
  sqlVersions : Except Unit (List VersionsVal)
  defaultVersion : Except Unit (Option String)
  runPredict : String → String → Frame → Except Unit Frame
  sp500Tickers : Except Unit (List String)
  priceFeatures : Except Unit Frame
  predictionsTable : Except Unit Frame
  driftTable : Except Unit Frame
  shapTable : Except Unit Frame
  timeBounds : Except Unit (Option Int × Option Int)
  today : Int
  signalSql : String → Int → Except String (List String)

/-! ### list_model_versions -/

/-- The Registry branch of `list_model_versions` (the first `try` block):
`some l` when the block returns the list `l`, `none` when it falls through
to the SQL fallback (exception raised and caught, empty `show_models`
frame, model name not found, or a versions cell of an unexpected type). -/
def registryVersions (s : Sess) : Option (List String) :=
  match s.showModels with
  | .error _ => none
  | .ok rows =>
    if rows.isEmpty then none
    else
      match rows.find? (fun p => p.1 = "XGB_SP500_RET3M") with
      | none => none
      | some (_, .vstr v) => (s.parse v).toOption
      | some (_, .vlist l) => some l
      | some (_, .vother) => none

/-- The SQL fallback branch of `list_model_versions` (the second `try`
block): reads the `VERSIONS` cell of the first result row and parses it,
returning `[]` whenever anything fails or nothing matches. -/
def fallbackVersions (s : Sess) : List String :=
  match s.sqlVersions with
  | .error _ => []
  | .ok [] => []
  | .ok (v :: _) =>
    match v with
    | .vstr sv =>
      match s.parse sv with
      | .ok l => l
      | .error _ => []
    | .vlist l => l
    | .vother => []

/-- `list_model_versions(session)`: Registry API first, SQL fallback next,
`[]` when both yield nothing.  Total: every exception is caught. -/
def list_model_versions (s : Sess) : List String :=
  match registryVersions s with
  | some l => l
  | none => fallbackVersions s

/-! ### get_default_version -/

/-- The sort key of the fallback branch of `get_default_version`:
`int(str(v).split("_")[-1])`, with `-1` when `int` raises. -/
def pyKey (v : String) : Int :=
  match ((v.splitOn "_").getLastD v).toInt? with
  | some n => n
  | none => -1

/-- Comparison by `pyKey`, the order `sorted(vers, key=key)` sorts by. -/
def keyLE (a b : String) : Prop := pyKey a ≤ pyKey b

instance : DecidableRel keyLE := fun a b =>
  inferInstanceAs (Decidable (pyKey a ≤ pyKey b))

instance : IsTotal String keyLE := ⟨fun a b => le_total (pyKey a) (pyKey b)⟩

instance : IsTrans String keyLE := ⟨fun _ _ _ h h2 => le_trans h h2⟩

/-- `get_default_version(session)`: the registry default-version name when
that lookup yields a string, otherwise the last element of the version
list stably sorted by numeric suffix (`None` when the list is empty).
Total: every exception is caught. -/
def get_default_version (s : Sess) : Option String :=
  match s.defaultVersion with
  | .ok (some n) => some n
  | _ => (List.insertionSort keyLE (list_model_versions s)).getLast?

/-! ### list_tickers, get_time_bounds -/

/-- The `TICKER` string of a row (the fallback path of `list_tickers`
reads this column from `PRICE_FEATURES`). -/
def rowTicker (r : Row) : String :=
  match r.get "TICKER" with
  | .str t => t
  | _ => ""

/-- `list_tickers(session)`: the `SP500_TICKERS` table when it reads and is
nonempty, otherwise the distinct `TICKER`s of `PRICE_FEATURES`.  The
fallback is NOT inside a `try` block: its failure propagates. -/
def list_tickers (s : Sess) : Except Unit (List String) :=
  let fb : Except Unit (List String) :=
    (s.priceFeatures).map fun f => (f.rows.map rowTicker).eraseDups
  match s.sp500Tickers with
  | .ok ts => if ts.isEmpty then fb else .ok ts
  | .error _ => fb

/-- `get_time_bounds(session)`: the MIN/MAX timestamps of
`PRICE_FEATURES`, substituting (today − 90 days, today) for NULL bounds.
There is no `try` block: a failing query propagates. -/
def get_time_bounds (s : Sess) : Except Unit (Int × Int) :=
  (s.timeBounds).map fun b => (b.1.getD (s.today - 90), b.2.getD s.today)

/-! ### Window queries: filtering and sorting -/

/-- The Snowpark filter
`(col("TICKER") == symbol) & (col("TS") >= start) & (col("TS") <= end)`
under SQL three-valued logic: a row is kept only when every comparison is
TRUE (so NULL tickers or timestamps are dropped). -/
def keepRow (symbol : String) (startTs endTs : Int) (r : Row) : Bool :=
  (match r.get "TICKER" with
   | .str t => t = symbol
   | _ => false)
  && (match r.get "TS" with
      | .int t => startTs ≤ t && t ≤ endTs
      | _ => false)

/-- The timestamp of a row (0 for a NULL / missing `TS`; every row kept by
`keepRow` has an integer `TS`). -/
def rowTs (r : Row) : Int :=
  match r.get "TS" with
  | .int t => t
  | _ => 0

/-- The `sort(col("TS"))` order. -/
def tsLE (a b : Row) : Prop := rowTs a ≤ rowTs b

instance : DecidableRel tsLE := fun a b =>
  inferInstanceAs (Decidable (rowTs a ≤ rowTs b))

instance : IsTotal Row tsLE := ⟨fun a b => le_total (rowTs a) (rowTs b)⟩

instance : IsTrans Row tsLE := ⟨fun _ _ _ h h2 => le_trans h h2⟩

/-- `load_existing_predictions(session, symbol, start_ts, end_ts)`: the
rows of `PREDICTIONS_SP500_RET3M` for the symbol with `TS` in the closed
window, sorted ascending by `TS`, all columns untouched.  No `try` block:
a failing read propagates (main catches it). -/
def load_existing_predictions (s : Sess) (symbol : String)
    (startTs endTs : Int) : Except Unit Frame :=
  (s.predictionsTable).map fun f =>
    ⟨f.cols, List.insertionSort tsLE (f.rows.filter (keepRow symbol startTs endTs))⟩

/-- `score_on_demand(session, symbol, start_ts, end_ts, version)`: selects
the feature rows for the window, sorted by `TS`, and returns exactly the
registry model version `run` call with function name `PREDICT` on them.
No `try` block: any failure propagates (main catches it). -/
def score_on_demand (s : Sess) (symbol : String) (startTs endTs : Int)
    (version : String) : Except Unit Frame :=
  match s.priceFeatures with
  | .error e => .error e
  | .ok f =>
    s.runPredict version "PREDICT"
      ⟨f.cols, List.insertionSort tsLE (f.rows.filter (keepRow symbol startTs endTs))⟩

/-- The `select("TICKER", "TS", "CLOSE")` projection of a row. -/
def selectClose (r : Row) : Row :=
  [("TICKER", r.get "TICKER"), ("TS", r.get "TS"), ("CLOSE", r.get "CLOSE")]

/-- `load_close_series(session, symbol, start_ts, end_ts)`: the
`TICKER, TS, CLOSE` projection of the windowed feature rows, sorted by
`TS`.  No `try` block: a failing read propagates (main catches it). -/
def load_close_series (s : Sess) (symbol : String)
    (startTs endTs : Int) : Except Unit Frame :=
  (s.priceFeatures).map fun f =>
    ⟨["TICKER", "TS", "CLOSE"],
     List.insertionSort tsLE ((f.rows.filter (keepRow symbol startTs endTs)).map selectClose)⟩

/-! ### get_trading_signal_demo -/

/-- `get_trading_signal_demo(session, ticker, days)`: runs
`SELECT GET_TRADING_SIGNAL(ticker, days)`, returns the first SIGNAL value,
the fixed string on an empty result, and an error string built from the
exception message on any failure.  Total: every exception is caught. -/
def get_trading_signal_demo (s : Sess) (ticker : String) (days : Int) : String :=
  match s.signalSql ticker days with
  | .error e => "Error getting signal: " ++ e
  | .ok [] => "No signal available"
  | .ok (sig :: _) => sig

/-! ### main: sidebar version reordering, load blocks, drift view -/

/-- The sidebar inputs and button states of one `main` run. -/
structure UI where
  existingMode : Bool
  ticker : String
  startTs : Int
  endTs : Int
  selectedVersion : String
  signalClicked : Bool
  signalTicker : String
  signalDays : Int
  compareClicked : Bool

/-- The sidebar reordering
`if default_ver and default_ver in versions: versions = [default_ver] + [v for v in versions if v != default_ver]`.
Note the Python truthiness test: a `None` default AND an empty-string
default both leave the list unchanged. -/
def reorderVersions (versions : List String) (dflt : Option String) : List String :=
  match dflt with
  | none => versions
  | some d =>
    if d ≠ "" ∧ d ∈ versions then d :: versions.filter (fun v => v ≠ d)
    else versions

/-- The empty `pd.DataFrame()`. -/
def emptyFrame : Frame := ⟨[], []⟩

/-- The prediction source `main` tries: persisted predictions in
`Existing predictions` mode, on-demand scoring otherwise. -/
def predsSource (s : Sess) (ui : UI) : Except Unit Frame :=
  if ui.existingMode then
    load_existing_predictions s ui.ticker ui.startTs ui.endTs
  else
    score_on_demand s ui.ticker ui.startTs ui.endTs ui.selectedVersion

/-- The prediction-loading block of `main`: `load_existing_predictions` or
`score_on_demand` by source mode, an exception replaced by the empty frame
together with a shown warning (the `Bool` component). -/
def loadPredsBlock (s : Sess) (ui : UI) : Frame × Bool :=
  match predsSource s ui with
  | .ok f => (f, false)
  | .error _ => (emptyFrame, true)

/-- `pd.DataFrame(columns=["TICKER", "TS", "CLOSE"])`. -/
def emptyCloseFrame : Frame := ⟨["TICKER", "TS", "CLOSE"], []⟩

/-- The close-series block of `main`: `load_close_series`, an exception
replaced by an empty frame with columns TICKER, TS, CLOSE together with a
shown warning. -/
def loadFeatsBlock (s : Sess) (ui : UI) : Frame × Bool :=
  match load_close_series s ui.ticker ui.startTs ui.endTs with
  | .ok f => (f, false)
  | .error _ => (emptyCloseFrame, true)

/-- What the drift tab shows: a dataframe or an informational message. -/
inductive DriftDisplay where
  | table : Frame → DriftDisplay
  | message : String → DriftDisplay
deriving DecidableEq, Repr

/-- The `FEATURE` string of a drift row (`sort_values("FEATURE")` key). -/
def rowFeature (r : Row) : String :=
  match r.get "FEATURE" with
  | .str f => f
  | _ => ""

/-- The `sort_values("FEATURE")` order. -/
def featLE (a b : Row) : Prop := rowFeature a ≤ rowFeature b

instance : DecidableRel featLE := fun a b =>
  inferInstanceAs (Decidable (rowFeature a ≤ rowFeature b))

instance : IsTotal Row featLE := ⟨fun a b => le_total (rowFeature a) (rowFeature b)⟩

instance : IsTrans Row featLE := ⟨fun _ _ _ h h2 => le_trans h h2⟩

/-- The drift tab of `main`: reads `DRIFT_PSI_SP500` and displays it sorted
by feature name with the index reset (row order is all `reset_index`
changes, so it is the identity in this model), or an informational message
when the table is empty or unreadable. -/
def driftView (s : Sess) : DriftDisplay :=
  match s.driftTable with
  | .error _ =>
    .message "PSI table not found. Run the inference/monitoring notebook to generate it."
  | .ok f =>
    if f.rows.isEmpty then .message "PSI table is empty."
    else .table ⟨f.cols, List.insertionSort featLE f.rows⟩

/-! ### Database-interaction traces

Every warehouse interaction the app can issue, as data.  The type has
constructors for writes so that read-onlyness is a fact about the traces,
not about the type. -/

/-- One database / registry interaction.  SQL text is carried as a label;
the write constructors exist so that the read-only theorems are not
vacuous (the app never issues them). -/
inductive DbOp where
  | readTable : String → DbOp
  | sqlSelect : String → DbOp
  | sqlInsert : String → DbOp
  | sqlUpdate : String → DbOp
  | sqlDelete : String → DbOp
  | sqlCreate : String → DbOp
  | sqlDrop : String → DbOp
  | registryShow : DbOp
  | registryGetModel : String → DbOp
  | registryRun : String → String → DbOp
deriving DecidableEq, Repr

/-- Reads leave warehouse state alone; the five write shapes do not. -/
def DbOp.isRead : DbOp → Bool
  | .readTable _ => true
  | .sqlSelect _ => true
  | .sqlInsert _ => false
  | .sqlUpdate _ => false
  | .sqlDelete _ => false
  | .sqlCreate _ => false
  | .sqlDrop _ => false
  | .registryShow => true
  | .registryGetModel _ => true
  | .registryRun _ _ => true

/-- Warehouse state: table name to rows (registry metadata included, as
tables). -/
def Warehouse := String → List Row

/-- Effect of one interaction on warehouse state: reads are the identity,
writes change the named table. -/
def execOp (w : Warehouse) : DbOp → Warehouse
  | .readTable _ => w
  | .sqlSelect _ => w
  | .sqlInsert t => fun n => if n = t then [] :: w n else w n
  | .sqlUpdate t => fun n => if n = t then (w n).map (fun _ => []) else w n
  | .sqlDelete t => fun n => if n = t then [] else w n
  | .sqlCreate t => fun n => if n = t then [] else w n
  | .sqlDrop t => fun n => if n = t then [] else w n
  | .registryShow => w
  | .registryGetModel _ => w
  | .registryRun _ _ => w

/-- Interactions of `list_model_versions`: the Registry call, then the SQL
fallback exactly when the Registry branch falls through. -/
def listModelVersionsOps (s : Sess) : List DbOp :=
  [.registryShow] ++
    (if (registryVersions s).isSome then []
     else [.sqlSelect "SELECT versions FROM SP500_STOCK_DEMO.DATA.SNOWFLAKE_ML_MODELS WHERE name = XGB_SP500_RET3M"])

/-- Interactions of `get_default_version`: the registry default lookup,
then `list_model_versions` exactly when the lookup yields no string. -/
def getDefaultVersionOps (s : Sess) : List DbOp :=
  [.registryGetModel "XGB_SP500_RET3M"] ++
    (match s.defaultVersion with
     | .ok (some _) => []
     | _ => listModelVersionsOps s)

/-- Interactions of `list_tickers`: the tickers table, then the
`PRICE_FEATURES` fallback exactly when the first read fails or is empty. -/
def listTickersOps (s : Sess) : List DbOp :=
  [.readTable "SP500_STOCK_DEMO.DATA.SP500_TICKERS"] ++
    (match s.sp500Tickers with
     | .ok ts =>
       if ts.isEmpty then [.readTable "SP500_STOCK_DEMO.DATA.PRICE_FEATURES"] else []
     | .error _ => [.readTable "SP500_STOCK_DEMO.DATA.PRICE_FEATURES"])

/-- Interactions of `get_time_bounds`. -/
def getTimeBoundsOps : List DbOp :=
  [.sqlSelect "SELECT MIN(TS) AS MN, MAX(TS) AS MX FROM SP500_STOCK_DEMO.DATA.PRICE_FEATURES"]

/-- Interactions of `load_existing_predictions`. -/
def loadExistingOps : List DbOp :=
  [.readTable "SP500_STOCK_DEMO.DATA.PREDICTIONS_SP500_RET3M"]

/-- Interactions of `score_on_demand`: registry model lookup, feature read,
`run` with function name PREDICT. -/
def scoreOps (version : String) : List DbOp :=
  [.registryGetModel "XGB_SP500_RET3M",
   .readTable "SP500_STOCK_DEMO.DATA.PRICE_FEATURES",
   .registryRun version "PREDICT"]

/-- Interactions of `load_close_series`. -/
def loadCloseOps : List DbOp :=
  [.readTable "SP500_STOCK_DEMO.DATA.PRICE_FEATURES"]

/-- Interactions of `get_trading_signal_demo` (the GET_TRADING_SIGNAL call
is a scalar SELECT). -/
def signalOps (ticker : String) (days : Int) : List DbOp :=
  [.sqlSelect ("SELECT GET_TRADING_SIGNAL(" ++ ticker ++ ", " ++ toString days ++ ") as signal")]

/-- Interactions of the Compare-Top-5 button: one signal call per ticker. -/
def compareOps : List DbOp :=
  (["AAPL", "MSFT", "GOOGL", "AMZN", "TSLA"]).flatMap (fun t => signalOps t 7)

/-- All warehouse interactions one `main` run can issue, in program order
(a run aborted by an uncaught exception issues a prefix of these). -/
def mainOps (s : Sess) (ui : UI) : List DbOp :=
  listModelVersionsOps s ++ getDefaultVersionOps s ++ listTickersOps s ++
    getTimeBoundsOps ++
    (if ui.existingMode then loadExistingOps else scoreOps ui.selectedVersion) ++
    loadCloseOps ++
    (if ui.signalClicked ∧ ui.signalTicker ≠ "" then
       signalOps ui.signalTicker ui.signalDays
     else []) ++
    (if ui.compareClicked then compareOps else []) ++
    [.readTable "SP500_STOCK_DEMO.DATA.DRIFT_PSI_SP500"] ++
    [.readTable "SP500_STOCK_DEMO.DATA.FEATURE_SHAP_GLOBAL_TOP"]

/-! ### Concrete sessions used by witnesses and counterexamples -/

/-- A session on which every external interaction raises. -/
def failSess : Sess where
  showModels := Except.error ()
  parse := fun _ => Except.error ()
  sqlVersions := Except.error ()
  defaultVersion := Except.error ()
  runPredict := fun _ _ _ => Except.error ()
  sp500Tickers := Except.error ()
  priceFeatures := Except.error ()
  predictionsTable := Except.error ()
  driftTable := Except.error ()
  shapTable := Except.error ()
  timeBounds := Except.error ()
  today := 0
  signalSql := fun _ _ => Except.error "boom"

/-- A small concrete `PRICE_FEATURES` table. -/
def okFeats : Frame :=
  ⟨["TICKER", "TS", "CLOSE", "RSI"],
   [[("TICKER", Val.str "AAPL"), ("TS", Val.int 2), ("CLOSE", Val.int 101), ("RSI", Val.int 55)],
    [("TICKER", Val.str "AAPL"), ("TS", Val.int 1), ("CLOSE", Val.int 100), ("RSI", Val.int 50)],
    [("TICKER", Val.str "MSFT"), ("TS", Val.int 1), ("CLOSE", Val.int 200), ("RSI", Val.int 60)]]⟩

/-- A small concrete `PREDICTIONS_SP500_RET3M` table. -/
def okPreds : Frame :=
  ⟨["TICKER", "TS", "PREDICTED_RETURN"],
   [[("TICKER", Val.str "AAPL"), ("TS", Val.int 2), ("PREDICTED_RETURN", Val.int 7)],
    [("TICKER", Val.str "AAPL"), ("TS", Val.int 1), ("PREDICTED_RETURN", Val.int 3)]]⟩

/-- A small concrete `DRIFT_PSI_SP500` table. -/
def okDrift : Frame :=
  ⟨["FEATURE", "PSI"],
   [[("FEATURE", Val.str "RSI"), ("PSI", Val.int 2)],
    [("FEATURE", Val.str "CLOSE"), ("PSI", Val.int 1)]]⟩

/-- A session on which every interaction succeeds. -/
def okSess : Sess where
  showModels := Except.ok [("XGB_SP500_RET3M", VersionsVal.vlist ["V_1", "V_2"])]
  parse := fun _ => Except.ok []
  sqlVersions := Except.ok []
  defaultVersion := Except.ok (some "V_2")
  runPredict := fun _ _ f => Except.ok f
  sp500Tickers := Except.ok ["AAPL", "MSFT"]
  priceFeatures := Except.ok okFeats
  predictionsTable := Except.ok okPreds
  driftTable := Except.ok okDrift
  shapTable := Except.ok emptyFrame
  timeBounds := Except.ok (some 1, some 2)
  today := 100
  signalSql := fun _ _ => Except.ok ["BUY"]

/-- A session whose Registry calls all raise but whose SQL fallback for the
versions list succeeds. -/
def fbSess : Sess :=
  { failSess with sqlVersions := Except.ok [VersionsVal.vlist ["V_1", "V_10", "V_2"]] }

/-- Sidebar inputs used by the witnesses. -/
def failUI : UI :=
  ⟨true, "AAPL", 0, 10, "V_1", false, "", 7, false⟩

/-! ### Helper lemmas -/

/-- A trace of reads leaves the warehouse unchanged. -/
lemma foldl_execOp_of_all_read :
    ∀ ops : List DbOp, ops.all DbOp.isRead = true →
      ∀ w : Warehouse, List.foldl execOp w ops = w := by
  intro ops
  induction ops with
  | nil => intro _ w; rfl
  | cons op t ih =>
    intro h w
    rw [List.all_cons, Bool.and_eq_true] at h
    have hw : execOp w op = w := by
      cases op <;> simp_all [DbOp.isRead, execOp]
    rw [List.foldl_cons, hw]
    exact ih h.2 w

lemma listModelVersionsOps_read (s : Sess) :
    (listModelVersionsOps s).all DbOp.isRead = true := by
  unfold listModelVersionsOps
  split <;> rfl

lemma getDefaultVersionOps_read (s : Sess) :
    (getDefaultVersionOps s).all DbOp.isRead = true := by
  unfold getDefaultVersionOps
  split
  · rfl
  · simp [List.all_append, listModelVersionsOps_read s, DbOp.isRead]

lemma listTickersOps_read (s : Sess) :
    (listTickersOps s).all DbOp.isRead = true := by
  unfold listTickersOps
  split
  · split <;> rfl
  · rfl

lemma mainOps_read (s : Sess) (ui : UI) :
    (mainOps s ui).all DbOp.isRead = true := by
  unfold mainOps
  split_ifs <;>
    simp [List.all_append, listModelVersionsOps_read, getDefaultVersionOps_read,
      listTickersOps_read, getTimeBoundsOps, loadExistingOps, scoreOps, loadCloseOps,
      signalOps, compareOps, DbOp.isRead]

/-- The `keepRow` filter spelt out: ticker matches and the timestamp is an
integer inside the closed window. -/
lemma keepRow_iff (sym : String) (a b : Int) (r : Row) :
    keepRow sym a b r = true ↔
      (Row.get r "TICKER" = Val.str sym ∧
        ∃ t, Row.get r "TS" = Val.int t ∧ a ≤ t ∧ t ≤ b) := by
  unfold keepRow
  cases hT : Row.get r "TICKER" <;> cases hS : Row.get r "TS" <;>
    simp [Bool.and_eq_true]

/-- The last element of a `keyLE`-sorted list is a member and has the
maximal key. -/
lemma sorted_getLast?_max :
    ∀ l : List String, List.Sorted keyLE l →
      ∀ v, l.getLast? = some v → v ∈ l ∧ ∀ x ∈ l, pyKey x ≤ pyKey v := by
  intro l
  induction l with
  | nil => intro _ v hv; cases hv
  | cons a t ih =>
    intro hs v hv
    cases t with
    | nil =>
      have hav : a = v := by simpa using hv
      subst hav
      refine ⟨List.mem_singleton.mpr rfl, ?_⟩
      intro x hx
      rw [List.mem_singleton] at hx
      subst hx
      exact le_refl _
    | cons b t2 =>
      rw [List.getLast?_cons_cons] at hv
      rw [List.sorted_cons] at hs
      obtain ⟨ha, hs2⟩ := hs
      obtain ⟨hvmem, hmax⟩ := ih hs2 v hv
      refine ⟨List.mem_cons_of_mem a hvmem, ?_⟩
      intro x hx
      rcases List.mem_cons.mp hx with rfl | hx2
      · exact ha v hvmem
      · exact hmax x hx2

/-! ### The claims -/

/-- Claim C2 (confirmed): every database interaction any run of the app can
issue — table reads, SQL statements, registry metadata and `run` calls —
is a read, so the warehouse state is left unchanged by executing the whole
trace. -/
theorem app_is_read_only (s : Sess) (ui : UI) (w : Warehouse) :
    (mainOps s ui).all DbOp.isRead = true ∧
    List.foldl execOp w (mainOps s ui) = w :=
  ⟨mainOps_read s ui, foldl_execOp_of_all_read _ (mainOps_read s ui) w⟩

/-- Claim C3 (confirmed): `list_model_versions` attempts the Registry API
first; whenever that branch falls through (exception, missing model, bad
cell) it returns the SQL fallback over the `SNOWFLAKE_ML_MODELS` versions
column, and when the fallback also raises it returns `[]`.  It never
raises: its return type is a plain list, every exception being caught. -/
theorem list_model_versions_spec (s : Sess) :
    (listModelVersionsOps s).head? = some DbOp.registryShow ∧
    (∀ l, registryVersions s = some l → list_model_versions s = l) ∧
    (registryVersions s = none → list_model_versions s = fallbackVersions s) ∧
    (registryVersions s = none → s.sqlVersions = Except.error () →
      list_model_versions s = []) := by
  refine ⟨rfl, ?_, ?_, ?_⟩
  · intro l h
    simp [list_model_versions, h]
  · intro h
    simp [list_model_versions, h]
  · intro h h2
    simp [list_model_versions, h, fallbackVersions, h2]

/-- Claim C3 witness: on the session where both paths raise, the result is
the empty list. -/
theorem list_model_versions_spec_witness :
    list_model_versions failSess = [] :=
  (list_model_versions_spec failSess).2.2.2 rfl rfl

/-- Claim C1 counterexample (corrected): on the session where every read
raises, `list_tickers`, `get_time_bounds` and `score_on_demand` all raise
instead of returning an empty result — the claimed universal
return-empty-on-double-failure pattern fails on exactly the three
functions the claim singles out. -/
theorem best_effort_pattern_counterexample :
    list_tickers failSess = Except.error () ∧
    get_time_bounds failSess = Except.error () ∧
    score_on_demand failSess "AAPL" 0 10 "V_1" = Except.error () :=
  ⟨rfl, rfl, rfl⟩

/-- Claim C1 amended (proved): the guarded readers
(`list_model_versions`, `get_trading_signal_demo`) swallow failures and
return a plain value, while `list_tickers` propagates a failure of its
fallback read, and `get_time_bounds` and `score_on_demand` have no second
path at all and propagate any failure (main catches the prediction and
close-series ones). -/
theorem best_effort_pattern_amended (s : Sess) :
    (s.sp500Tickers = Except.error () → s.priceFeatures = Except.error () →
      list_tickers s = Except.error ()) ∧
    (s.timeBounds = Except.error () → get_time_bounds s = Except.error ()) ∧
    (∀ sym a b v, s.priceFeatures = Except.error () →
      score_on_demand s sym a b v = Except.error ()) ∧
    (registryVersions s = none → s.sqlVersions = Except.error () →
      list_model_versions s = []) ∧
    (∀ t d e, s.signalSql t d = Except.error e →
      get_trading_signal_demo s t d = "Error getting signal: " ++ e) := by
  refine ⟨?_, ?_, ?_, ?_, ?_⟩
  · intro h1 h2
    simp [list_tickers, h1, h2, Except.map]
  · intro h
    simp [get_time_bounds, h, Except.map]
  · intro sym a b v h
    simp [score_on_demand, h]
  · intro h h2
    simp [list_model_versions, h, fallbackVersions, h2]
  · intro t d e h
    simp [get_trading_signal_demo, h]

/-- Claim C1 amended, witness: the propagation and the swallowing, each at
a concrete session. -/
theorem best_effort_pattern_amended_witness :
    list_tickers failSess = Except.error () ∧
    get_trading_signal_demo failSess "AAPL" 7 = "Error getting signal: " ++ "boom" :=
  ⟨(best_effort_pattern_amended failSess).1 rfl rfl,
   (best_effort_pattern_amended failSess).2.2.2.2 "AAPL" 7 "boom" rfl⟩

/-- Claim C4 (confirmed): `main` replaces a raising prediction load
(persisted or on-demand) by the empty frame plus a warning, and a raising
close-series load by an empty frame with columns TICKER, TS, CLOSE plus a
warning; a successful load is passed through unchanged, so rendering
always receives a frame. -/
theorem main_load_blocks_spec (s : Sess) (ui : UI) :
    (∀ f, predsSource s ui = Except.ok f → loadPredsBlock s ui = (f, false)) ∧
    (∀ e, predsSource s ui = Except.error e →
      loadPredsBlock s ui = (emptyFrame, true) ∧ emptyFrame.rows = []) ∧
    (∀ f, load_close_series s ui.ticker ui.startTs ui.endTs = Except.ok f →
      loadFeatsBlock s ui = (f, false)) ∧
    (∀ e, load_close_series s ui.ticker ui.startTs ui.endTs = Except.error e →
      loadFeatsBlock s ui = (emptyCloseFrame, true) ∧
      emptyCloseFrame.cols = ["TICKER", "TS", "CLOSE"] ∧
      emptyCloseFrame.rows = []) := by
  refine ⟨?_, ?_, ?_, ?_⟩
  · intro f h
    simp [loadPredsBlock, h]
  · intro e h
    simp [loadPredsBlock, h, emptyFrame]
  · intro f h
    simp [loadFeatsBlock, h]
  · intro e h
    simp [loadFeatsBlock, h, emptyCloseFrame]

/-- Claim C4 witness: on the all-failing session both blocks substitute
their empty frames and show warnings. -/
theorem main_load_blocks_spec_witness :
    loadPredsBlock failSess failUI = (emptyFrame, true) ∧
    loadFeatsBlock failSess failUI = (emptyCloseFrame, true) :=
  ⟨((main_load_blocks_spec failSess failUI).2.1 () rfl).1,
   ((main_load_blocks_spec failSess failUI).2.2.2 () rfl).1⟩

/-- Claim C5 (confirmed): `score_on_demand` computes no score itself: when
the feature table reads, its result is exactly the registry `run` call
with function name PREDICT applied to the feature rows of the symbol whose
timestamp lies in the closed window, sorted ascending by TS, columns
untouched. -/
theorem score_on_demand_delegates (s : Sess) (sym : String) (a b : Int)
    (v : String) (f : Frame) (h : s.priceFeatures = Except.ok f) :
    ∃ input : Frame,
      score_on_demand s sym a b v = s.runPredict v "PREDICT" input ∧
      input.cols = f.cols ∧
      List.Perm input.rows (f.rows.filter (keepRow sym a b)) ∧
      List.Sorted tsLE input.rows ∧
      (∀ r, r ∈ input.rows ↔ r ∈ f.rows ∧ keepRow sym a b r = true) ∧
      (∀ r, keepRow sym a b r = true ↔
        (Row.get r "TICKER" = Val.str sym ∧
          ∃ t, Row.get r "TS" = Val.int t ∧ a ≤ t ∧ t ≤ b)) := by
  refine ⟨⟨f.cols, List.insertionSort tsLE (f.rows.filter (keepRow sym a b))⟩,
    ?_, rfl, List.perm_insertionSort _ _, List.sorted_insertionSort _ _, ?_,
    fun r => keepRow_iff sym a b r⟩
  · simp [score_on_demand, h]
  · intro r
    rw [(List.perm_insertionSort _ _).mem_iff]
    exact List.mem_filter

/-- Claim C5 witness: delegation at a concrete session and window. -/
theorem score_on_demand_delegates_witness :
    ∃ input : Frame,
      score_on_demand okSess "AAPL" 0 10 "V_1" =
        okSess.runPredict "V_1" "PREDICT" input ∧
      input.cols = okFeats.cols ∧
      List.Perm input.rows (okFeats.rows.filter (keepRow "AAPL" 0 10)) ∧
      List.Sorted tsLE input.rows ∧
      (∀ r, r ∈ input.rows ↔ r ∈ okFeats.rows ∧ keepRow "AAPL" 0 10 r = true) ∧
      (∀ r, keepRow "AAPL" 0 10 r = true ↔
        (Row.get r "TICKER" = Val.str "AAPL" ∧
          ∃ t, Row.get r "TS" = Val.int t ∧ 0 ≤ t ∧ t ≤ 10)) :=
  score_on_demand_delegates okSess "AAPL" 0 10 "V_1" okFeats rfl

/-- Claim C6 (confirmed): when the predictions table reads,
`load_existing_predictions` returns exactly its rows with matching ticker
and timestamp in the closed window, ascending by TS, every returned row
being literally a stored row (so every column, the predicted-return one
included, is unmodified) under the unchanged column list. -/
theorem load_existing_predictions_spec (s : Sess) (sym : String) (a b : Int)
    (f : Frame) (h : s.predictionsTable = Except.ok f) :
    ∃ rows : List Row,
      load_existing_predictions s sym a b = Except.ok ⟨f.cols, rows⟩ ∧
      List.Perm rows (f.rows.filter (keepRow sym a b)) ∧
      List.Sorted tsLE rows ∧
      (∀ r, r ∈ rows ↔ r ∈ f.rows ∧ keepRow sym a b r = true) ∧
      (∀ r, keepRow sym a b r = true ↔
        (Row.get r "TICKER" = Val.str sym ∧
          ∃ t, Row.get r "TS" = Val.int t ∧ a ≤ t ∧ t ≤ b)) := by
  refine ⟨List.insertionSort tsLE (f.rows.filter (keepRow sym a b)),
    ?_, List.perm_insertionSort _ _, List.sorted_insertionSort _ _, ?_,
    fun r => keepRow_iff sym a b r⟩
  · simp [load_existing_predictions, h, Except.map]
  · intro r
    rw [(List.perm_insertionSort _ _).mem_iff]
    exact List.mem_filter

/-- Claim C6 witness: the windowed, sorted selection at a concrete table. -/
theorem load_existing_predictions_spec_witness :
    ∃ rows : List Row,
      load_existing_predictions okSess "AAPL" 0 10 = Except.ok ⟨okPreds.cols, rows⟩ ∧
      List.Perm rows (okPreds.rows.filter (keepRow "AAPL" 0 10)) ∧
      List.Sorted tsLE rows ∧
      (∀ r, r ∈ rows ↔ r ∈ okPreds.rows ∧ keepRow "AAPL" 0 10 r = true) ∧
      (∀ r, keepRow "AAPL" 0 10 r = true ↔
        (Row.get r "TICKER" = Val.str "AAPL" ∧
          ∃ t, Row.get r "TS" = Val.int t ∧ 0 ≤ t ∧ t ≤ 10)) :=
  load_existing_predictions_spec okSess "AAPL" 0 10 okPreds rfl

/-- Claim C7 (confirmed): the drift tab computes no PSI value: when the
drift table reads nonempty, the displayed frame is a permutation of the
stored rows sorted by feature name, every displayed row — hence every
displayed PSI statistic — being literally a stored one; an empty table or
a failing read shows an informational message instead. -/
theorem drift_view_spec (s : Sess) :
    (∀ f, s.driftTable = Except.ok f → f.rows ≠ [] →
      ∃ shown : List Row,
        driftView s = DriftDisplay.table ⟨f.cols, shown⟩ ∧
        List.Perm shown f.rows ∧
        List.Sorted featLE shown ∧
        (∀ r, r ∈ shown → r ∈ f.rows) ∧
        (∀ r, r ∈ shown →
          Row.get r "PSI" ∈ f.rows.map (fun r0 => Row.get r0 "PSI"))) ∧
    (∀ f, s.driftTable = Except.ok f → f.rows = [] →
      driftView s = DriftDisplay.message "PSI table is empty.") ∧
    (∀ e, s.driftTable = Except.error e →
      driftView s =
        DriftDisplay.message
          "PSI table not found. Run the inference/monitoring notebook to generate it.") := by
  refine ⟨?_, ?_, ?_⟩
  · intro f h hne
    refine ⟨List.insertionSort featLE f.rows, ?_,
      List.perm_insertionSort _ _, List.sorted_insertionSort _ _, ?_, ?_⟩
    · simp [driftView, h, List.isEmpty_iff, hne]
    · intro r hr
      exact (List.perm_insertionSort _ _).mem_iff.mp hr
    · intro r hr
      exact List.mem_map_of_mem _ ((List.perm_insertionSort _ _).mem_iff.mp hr)
  · intro f h he
    simp [driftView, h, List.isEmpty_iff, he]
  · intro e h
    simp [driftView, h]

/-- Claim C7 witness: the sorted display and the unreadable-table message,
each at a concrete session. -/
theorem drift_view_spec_witness :
    (∃ shown : List Row,
      driftView okSess = DriftDisplay.table ⟨okDrift.cols, shown⟩ ∧
      List.Perm shown okDrift.rows ∧
      List.Sorted featLE shown ∧
      (∀ r, r ∈ shown → r ∈ okDrift.rows) ∧
      (∀ r, r ∈ shown →
        Row.get r "PSI" ∈ okDrift.rows.map (fun r0 => Row.get r0 "PSI"))) ∧
    driftView failSess =
      DriftDisplay.message
        "PSI table not found. Run the inference/monitoring notebook to generate it." :=
  ⟨(drift_view_spec okSess).1 okDrift rfl (by decide),
   (drift_view_spec failSess).2.2 () rfl⟩

/-- Claim C8 (confirmed): `get_default_version` returns the registry
default name when the lookup yields a string; otherwise it returns a
member of the version list carrying the largest numeric-suffix key
(an unparsable suffix keying as −1), and `None` exactly when the list is
empty. -/
theorem get_default_version_spec (s : Sess) :
    (∀ n, s.defaultVersion = Except.ok (some n) → get_default_version s = some n) ∧
    ((s.defaultVersion = Except.error () ∨ s.defaultVersion = Except.ok none) →
      (list_model_versions s = [] → get_default_version s = none) ∧
      (list_model_versions s ≠ [] →
        ∃ v, get_default_version s = some v ∧ v ∈ list_model_versions s ∧
          ∀ x ∈ list_model_versions s, pyKey x ≤ pyKey v)) := by
  constructor
  · intro n h
    simp [get_default_version, h]
  · intro hd
    have hfall : get_default_version s =
        (List.insertionSort keyLE (list_model_versions s)).getLast? := by
      rcases hd with h | h <;> simp [get_default_version, h]
    constructor
    · intro hnil
      rw [hfall, hnil]
      rfl
    · intro hne
      have hperm := List.perm_insertionSort keyLE (list_model_versions s)
      have hLne : List.insertionSort keyLE (list_model_versions s) ≠ [] := by
        intro h0
        rw [h0] at hperm
        exact hne hperm.symm.eq_nil
      obtain ⟨v, hv⟩ := Option.isSome_iff_exists.mp (List.getLast?_isSome.mpr hLne)
      obtain ⟨hmem, hmax⟩ :=
        sorted_getLast?_max _ (List.sorted_insertionSort keyLE _) v hv
      refine ⟨v, ?_, hperm.mem_iff.mp hmem, fun x hx => hmax x (hperm.mem_iff.mpr hx)⟩
      rw [hfall]
      exact hv

/-- Claim C8 witness: the registry default at the all-good session, and
the numeric-suffix maximum (V_10 beats V_2) at the fallback session. -/
theorem get_default_version_spec_witness :
    get_default_version okSess = some "V_2" ∧
    (∃ v, get_default_version fbSess = some v ∧ v ∈ list_model_versions fbSess ∧
      ∀ x ∈ list_model_versions fbSess, pyKey x ≤ pyKey v) :=
  ⟨(get_default_version_spec okSess).1 "V_2" rfl,
   ((get_default_version_spec fbSess).2 (Or.inl rfl)).2 (by decide)⟩

/-- Claim C9 (confirmed): `get_trading_signal_demo` is total at its
interface: it always returns a string — the first SIGNAL value when the
query yields rows, the fixed string on an empty result, and a string
beginning with the error marker built from the exception message on any
failure. -/
theorem get_trading_signal_demo_spec (s : Sess) (t : String) (d : Int) :
    (∀ e, s.signalSql t d = Except.error e →
      get_trading_signal_demo s t d = "Error getting signal: " ++ e) ∧
    (s.signalSql t d = Except.ok [] →
      get_trading_signal_demo s t d = "No signal available") ∧
    (∀ sig rest, s.signalSql t d = Except.ok (sig :: rest) →
      get_trading_signal_demo s t d = sig) := by
  refine ⟨?_, ?_, ?_⟩
  · intro e h
    simp [get_trading_signal_demo, h]
  · intro h
    simp [get_trading_signal_demo, h]
  · intro sig rest h
    simp [get_trading_signal_demo, h]

/-- Claim C9 witness: the error string at the all-failing session, the
signal value at the all-good one. -/
theorem get_trading_signal_demo_spec_witness :
    get_trading_signal_demo failSess "AAPL" 7 = "Error getting signal: " ++ "boom" ∧
    get_trading_signal_demo okSess "AAPL" 7 = "BUY" :=
  ⟨(get_trading_signal_demo_spec failSess "AAPL" 7).1 "boom" rfl,
   (get_trading_signal_demo_spec okSess "AAPL" 7).2.2 "BUY" [] rfl⟩

/-- Claim C10 counterexample (corrected): the reordering guard uses Python
truthiness, so an empty-string default that IS present in the list leaves
the list unchanged: the options do not get the default first. -/
theorem reorder_versions_counterexample :
    ("" ∈ (["A", ""] : List String)) ∧
    reorderVersions ["A", ""] (some "") = ["A", ""] ∧
    (reorderVersions ["A", ""] (some "")).head? ≠ some "" := by
  decide

/-- Claim C10 amended (proved): whenever the default is a NON-EMPTY string
present in the list, the result is the default followed by the other
versions in their original relative order, membership is preserved, and —
on a duplicate-free list — each original version occurs exactly once;
when the default is absent, `None`, or the empty string the list is
unchanged. -/
theorem reorder_versions_amended (versions : List String) (d : String) :
    (d ≠ "" → d ∈ versions →
      reorderVersions versions (some d) = d :: versions.filter (fun v => v ≠ d) ∧
      (reorderVersions versions (some d)).head? = some d ∧
      (∀ v, v ∈ reorderVersions versions (some d) ↔ v ∈ versions) ∧
      (versions.Nodup → ∀ v ∈ versions,
        (reorderVersions versions (some d)).count v = 1) ∧
      (versions.filter (fun v => v ≠ d)).Sublist versions) ∧
    (d ∉ versions → reorderVersions versions (some d) = versions) ∧
    (d = "" → reorderVersions versions (some d) = versions) ∧
    reorderVersions versions none = versions := by
  refine ⟨?_, ?_, ?_, rfl⟩
  · intro hne hmem
    have hrw : reorderVersions versions (some d) =
        d :: versions.filter (fun v => v ≠ d) := by
      simp [reorderVersions, hne, hmem]
    refine ⟨hrw, by rw [hrw]; rfl, ?_, ?_, List.filter_sublist versions⟩
    · intro v
      rw [hrw]
      constructor
      · intro hv
        rcases List.mem_cons.mp hv with rfl | hv2
        · exact hmem
        · exact (List.mem_filter.mp hv2).1
      · intro hv
        by_cases hvd : v = d
        · rw [hvd]
          exact List.mem_cons_self _ _
        · exact List.mem_cons_of_mem _ (List.mem_filter.mpr ⟨hv, by simp [hvd]⟩)
    · intro hnd v hv
      rw [hrw]
      by_cases hvd : v = d
      · subst hvd
        rw [List.count_cons_self]
        have hz : List.count v (versions.filter (fun x => x ≠ v)) = 0 := by
          rw [List.count_eq_zero]
          intro hmem2
          have h2 := (List.mem_filter.mp hmem2).2
          simp at h2
        rw [hz]
      · rw [List.count_cons_of_ne hvd, List.count_filter (by simp [hvd])]
        exact List.count_eq_one_of_mem hnd hv
  · intro hnmem
    simp [reorderVersions, hnmem]
  · intro h0
    subst h0
    simp [reorderVersions]

/-- Claim C10 amended, witness: a non-empty present default is moved to
the front; a `None` default leaves the list unchanged. -/
theorem reorder_versions_amended_witness :
    reorderVersions ["V_1", "V_2"] (some "V_2") =
      "V_2" :: (["V_1", "V_2"].filter (fun v => v ≠ "V_2")) ∧
    reorderVersions ["V_1", "V_2"] none = ["V_1", "V_2"] :=
  ⟨((reorder_versions_amended ["V_1", "V_2"] "V_2").1 (by decide) (by decide)).1,
   (reorder_versions_amended ["V_1", "V_2"] "V_2").2.2.2⟩

end SP500App
